import Mathlib

/-!
Verification of the DashPilot OBD-II core: a shallow embedding of the
response decoder (src/app/obd.tsx parseOBDData), the command dispatcher
(src/app/obd.tsx sendOBDCommand and src/hooks/useBluetoothContext.tsx
sendCommand), the poller (src/app/obd.tsx fetchOBDData and the polling
effect), the session disconnect operation, and the persisted auto-connect
preference.  JavaScript numbers are modelled as exact rationals plus a
distinguished NaN value; JavaScript runtime errors are modelled with
Except.
-/

/-- JavaScript number restricted to the values this program produces:
either NaN or an exact rational.  All arithmetic performed by the decoder
(integer parsing, subtraction of 40, multiplication by 100, division by 4,
255 and 1000 on byte-sized inputs) is exact in IEEE double precision, so
rationals are a faithful carrier here. -/
inductive JSNum where
  | nan : JSNum
  | num : ℚ → JSNum
deriving DecidableEq, Repr

/-- Value of one hexadecimal digit character, as recognised by
JavaScript parseInt with radix 16; none for a non-digit. -/
def hexDigitVal (c : Char) : Option ℕ :=
  if '0' ≤ c ∧ c ≤ '9' then some (c.toNat - '0'.toNat)
  else if 'a' ≤ c ∧ c ≤ 'f' then some (c.toNat - 'a'.toNat + 10)
  else if 'A' ≤ c ∧ c ≤ 'F' then some (c.toNat - 'A'.toNat + 10)
  else none

/-- Accumulate the value of the longest hex-digit prefix, stopping at the
first non-digit, as JavaScript parseInt does. -/
def parseHexAux : List Char → ℕ → ℕ
  | [], acc => acc
  | c :: cs, acc =>
    match hexDigitVal c with
    | some d => parseHexAux cs (acc * 16 + d)
    | none => acc

/-- Model of the JavaScript call parseInt(s, 16) on the strings this
program feeds it (concatenations of hex byte tokens): the value of the
longest hex-digit prefix, or none for NaN when the string does not start
with a hex digit (in particular for the empty string).  The leading
whitespace, sign and 0x-prefix handling of parseInt never fires on these
inputs and is omitted. -/
def parseIntHex (s : String) : Option ℕ :=
  match s.data with
  | [] => none
  | c :: _ =>
    match hexDigitVal c with
    | some _ => some (parseHexAux s.data 0)
    | none => none

/-- PID request code for engine RPM (src/app/obd.tsx PID_COMMANDS.RPM). -/
def PID_RPM : String := "010C"

/-- PID request code for vehicle speed. -/
def PID_SPEED : String := "010D"

/-- PID request code for engine coolant temperature. -/
def PID_COOLANT_TEMP : String := "0105"

/-- PID request code for fuel level input. -/
def PID_FUEL_LEVEL : String := "012F"

/-- PID request code for calculated engine load. -/
def PID_ENGINE_LOAD : String := "0104"

/-- PID request code for throttle position. -/
def PID_THROTTLE_POS : String := "0111"

/-- PID request code for control module voltage. -/
def PID_CONTROL_MODULE_VOLTAGE : String := "0142"

/-- Injection of a parseInt result into a JavaScript number: none becomes
NaN. -/
def jsOfParse : Option ℕ → JSNum
  | none => JSNum.nan
  | some n => JSNum.num (n : ℚ)

/-- JavaScript ToInt32 conversion as applied by the bitwise operators:
NaN maps to 0, a finite value is truncated toward zero and wrapped into
the signed 32-bit range. -/
def jsToInt32 : JSNum → ℤ
  | JSNum.nan => 0
  | JSNum.num q =>
    let t : ℤ := Int.tdiv q.num (q.den : ℤ)
    let m : ℤ := t % (2 : ℤ) ^ 32
    if m < (2 : ℤ) ^ 31 then m else m - (2 : ℤ) ^ 32

/-- JavaScript expression (value >> 8): ToInt32 then arithmetic shift
right by 8 bits, which is floor division by 256. -/
def jsShr8 (x : JSNum) : ℤ := Int.fdiv (jsToInt32 x) 256

/-- JavaScript expression (value & 0xFF): ToInt32 then mask to the low
8 bits, which is the nonnegative remainder mod 256. -/
def jsAnd255 (x : JSNum) : ℤ := jsToInt32 x % 256

/-- NaN-propagating subtraction of a constant. -/
def jsSub (x : JSNum) (c : ℚ) : JSNum :=
  match x with
  | JSNum.nan => JSNum.nan
  | JSNum.num q => JSNum.num (q - c)

/-- NaN-propagating multiplication by a constant. -/
def jsMul (x : JSNum) (c : ℚ) : JSNum :=
  match x with
  | JSNum.nan => JSNum.nan
  | JSNum.num q => JSNum.num (q * c)

/-- NaN-propagating division by a nonzero constant. -/
def jsDiv (x : JSNum) (c : ℚ) : JSNum :=
  match x with
  | JSNum.nan => JSNum.nan
  | JSNum.num q => JSNum.num (q / c)

/-- Embedding of parseOBDData (src/app/obd.tsx lines 76 to 96): parse the
payload as hex, then dispatch on the PID code.  The RPM branch applies the
JavaScript bitwise operators to the value, so a NaN input is coerced to 0
there; every other branch propagates NaN. -/
def parseOBDData (pid : String) (hexData : String) : JSNum :=
  let value := jsOfParse (parseIntHex hexData)
  if pid = PID_RPM then
    JSNum.num (((jsShr8 value * 256 + jsAnd255 value : ℤ) : ℚ) / 4)
  else if pid = PID_SPEED then value
  else if pid = PID_COOLANT_TEMP then jsSub value 40
  else if pid = PID_FUEL_LEVEL then jsDiv (jsMul value 100) 255
  else if pid = PID_ENGINE_LOAD then jsDiv (jsMul value 100) 255
  else if pid = PID_THROTTLE_POS then jsDiv (jsMul value 100) 255
  else if pid = PID_CONTROL_MODULE_VOLTAGE then jsDiv value 1000
  else value

/-- Error taxonomy of the command paths, one constructor per distinct
Error value the source constructs:
notConnected is Error with message No device connected
(useBluetoothContext.tsx line 203); commandTimeout is Error with message
Command timeout, created inside the Promise.race (line 211); sendFailed
is Error with message Failed to send command to device, thrown by the
catch block of sendCommand (line 217); invalidResponseFormat is Error
with message Invalid OBD response format (obd.tsx line 69). -/
inductive CommandError where
  | notConnected : CommandError
  | commandTimeout : CommandError
  | sendFailed : CommandError
  | invalidResponseFormat : CommandError
deriving DecidableEq, Repr

/-- Split a character list at every space character, keeping empty
pieces, exactly as the JavaScript call split applied with a single-space
separator does. -/
def splitSpaceAux : List Char → List Char → List String
  | [], acc => [String.mk acc.reverse]
  | c :: cs, acc =>
    if c = ' ' then String.mk acc.reverse :: splitSpaceAux cs []
    else splitSpaceAux cs (c :: acc)

/-- Model of the JavaScript expression that splits the response string on
single spaces (obd.tsx line 65): every space is a separator and empty
tokens are kept, so the empty string yields one empty token. -/
def splitSpace (s : String) : List String := splitSpaceAux s.data []

/-- Validation half of sendOBDCommand (obd.tsx lines 65 to 69): split the
response on spaces; if the first token is the mode 01 positive-response
prefix 41, return the concatenation of all tokens after the first two,
otherwise throw the invalid-format error.  Indexing parts at 0 on an
empty list yields undefined in JavaScript, which is not equal to the
prefix, so the empty list also throws. -/
def validateOBDResponse (response : String) : Except CommandError String :=
  let parts := splitSpace response
  if parts.head? = some "41" then Except.ok (String.join (parts.drop 2))
  else Except.error CommandError.invalidResponseFormat

/-- Embedding of sendOBDCommand (obd.tsx lines 61 to 74): clear stale
input, send the command followed by a carriage return through the session
sendCommand (abstracted as the transport function), rethrow its failure
unchanged, and otherwise validate the response.  The requested command is
used only to form the request string, never to validate the reply. -/
def sendOBDCommand (transport : String → Except CommandError String)
    (command : String) : Except CommandError String :=
  match transport (command ++ "\r") with
  | Except.error e => Except.error e
  | Except.ok response => validateOBDResponse response

/-- Result of the Promise.race between readLine and the 5000 ms timer
inside sendCommand (useBluetoothContext.tsx lines 208 to 213): the
readLine argument is some line when a response line arrives within the
window and none when the timer fires first, in which case the race
rejects with the command-timeout error. -/
def raceReadLineTimeout (readLineResult : Option String) :
    Except CommandError String :=
  match readLineResult with
  | some line => Except.ok line
  | none => Except.error CommandError.commandTimeout

/-- Embedding of the session sendCommand (useBluetoothContext.tsx lines
201 to 219).  Inputs: the connected flag, the command string, whether the
driver write succeeds, and the race outcome.  Output: the surfaced result
together with the list of strings handed to the driver write.  When not
connected it throws before touching the transport; otherwise any failure
inside the try block, the timeout included, is caught and replaced by the
generic send-failure error. -/
def sendCommand (isConnected : Bool) (command : String) (writeOk : Bool)
    (readLineResult : Option String) :
    Except CommandError String × List String :=
  if isConnected = false then (Except.error CommandError.notConnected, [])
  else if writeOk = false then (Except.error CommandError.sendFailed, [command])
  else
    match raceReadLineTimeout readLineResult with
    | Except.ok line => (Except.ok line, [command])
    | Except.error _ => (Except.error CommandError.sendFailed, [command])

/-- Telemetry reading of the data screen (src/app/obd.tsx OBDData): seven
named fields, each null until first decoded. -/
structure OBDData where
  rpm : Option JSNum
  speed : Option JSNum
  coolantTemp : Option JSNum
  fuelLevel : Option JSNum
  engineLoad : Option JSNum
  throttlePos : Option JSNum
  batteryVoltage : Option JSNum
deriving DecidableEq, Repr

/-- All-unknown reading (src/app/obd.tsx INITIAL_OBD_DATA). -/
def INITIAL_OBD_DATA : OBDData :=
  { rpm := none, speed := none, coolantTemp := none, fuelLevel := none,
    engineLoad := none, throttlePos := none, batteryVoltage := none }

/-- Local state of the data screen relevant to the poller: the published
reading, the loading flag and the error message. -/
structure ScreenState where
  data : OBDData
  isLoading : Bool
  error : Option String
deriving DecidableEq, Repr

/-- Error message set by fetchOBDData when no device is connected
(obd.tsx line 100). -/
def OBD_NO_DEVICE_ERROR : String := "No OBD device connected"

/-- Error message set by the catch block of fetchOBDData (obd.tsx
line 132). -/
def OBD_POLL_ERROR : String := "Failed to fetch OBD data. Please check your connection."

/-- The seven PID commands in the order fetchOBDData issues them to
Promise.all (obd.tsx lines 110 to 118). -/
def OBD_PIDS : List String :=
  [PID_RPM, PID_SPEED, PID_COOLANT_TEMP, PID_FUEL_LEVEL, PID_ENGINE_LOAD,
    PID_THROTTLE_POS, PID_CONTROL_MODULE_VOLTAGE]

/-- Embedding of fetchOBDData (src/app/obd.tsx lines 98 to 136).  The
transport function abstracts the session sendCommand; the result pairs
the new screen state with the list of commands handed to the dispatcher
during the cycle.  When disconnected it sets the no-device error and
issues nothing.  When connected, Promise.all issues all seven commands;
if every one succeeds the reading is replaced wholesale by the decoded
values, otherwise the catch block only records the failure message, so
the previous reading stays published. -/
def fetchOBDData (isConnected : Bool)
    (transport : String → Except CommandError String) (st : ScreenState) :
    ScreenState × List String :=
  if isConnected = false then
    ({ st with error := some OBD_NO_DEVICE_ERROR, isLoading := false }, [])
  else
    match sendOBDCommand transport PID_RPM, sendOBDCommand transport PID_SPEED,
      sendOBDCommand transport PID_COOLANT_TEMP,
      sendOBDCommand transport PID_FUEL_LEVEL,
      sendOBDCommand transport PID_ENGINE_LOAD,
      sendOBDCommand transport PID_THROTTLE_POS,
      sendOBDCommand transport PID_CONTROL_MODULE_VOLTAGE with
    | Except.ok rpm, Except.ok speed, Except.ok coolant, Except.ok fuel,
      Except.ok load, Except.ok throttle, Except.ok voltage =>
      ({ data :=
           { rpm := some (parseOBDData PID_RPM rpm),
             speed := some (parseOBDData PID_SPEED speed),
             coolantTemp := some (parseOBDData PID_COOLANT_TEMP coolant),
             fuelLevel := some (parseOBDData PID_FUEL_LEVEL fuel),
             engineLoad := some (parseOBDData PID_ENGINE_LOAD load),
             throttlePos := some (parseOBDData PID_THROTTLE_POS throttle),
             batteryVoltage :=
               some (parseOBDData PID_CONTROL_MODULE_VOLTAGE voltage) },
         isLoading := false,
         error := none }, OBD_PIDS)
    | _, _, _, _, _, _, _ =>
      ({ st with error := some OBD_POLL_ERROR, isLoading := false }, OBD_PIDS)

/-- Embedding of the disconnected branch of the polling effect
(src/app/obd.tsx lines 146 to 149): no interval is installed, the reading
is reset to all-unknown and loading ends. -/
def disconnectedReset (st : ScreenState) : ScreenState :=
  { st with data := INITIAL_OBD_DATA, isLoading := false }

/-- Iterate n invocations of fetchOBDData while the session stays
disconnected, collecting every command issued to the transport. -/
def runDisconnectedPolls (transport : String → Except CommandError String) :
    ℕ → ScreenState → ScreenState × List String
  | 0, st => (st, [])
  | n + 1, st =>
    let step := fetchOBDData false transport st
    let rest := runDisconnectedPolls transport n step.1
    (rest.1, step.2 ++ rest.2)

/-- Paired or discovered Bluetooth device record
(useBluetoothContext.tsx BluetoothDevice). -/
structure BluetoothDevice where
  id : String
  name : String
  address : Option String
deriving DecidableEq, Repr

/-- Session state held by the Bluetooth provider
(useBluetoothContext.tsx lines 38 to 44). -/
structure SessionState where
  isEnabled : Bool
  isConnected : Bool
  autoConnect : Bool
  connectionError : Option String
  availableDevices : List BluetoothDevice
  pairedDevices : List BluetoothDevice
  connectedDeviceInfo : Option BluetoothDevice
deriving DecidableEq, Repr

/-- Embedding of disconnect (useBluetoothContext.tsx lines 173 to 199).
Driver behaviour is abstracted by three inputs: whether the
BluetoothSerial module and its disconnect method are available, the
outcome of the isEnabled query, and the outcome of the driver disconnect
call (Except.error models a rejected promise).  When already
disconnected the function returns from the try block at once, touching
nothing; every other path, the catch block included, clears the connected
flag and the device info before resolving or rethrowing. -/
def disconnect (driverAvailable : Bool) (driverEnabled : Except String Bool)
    (driverDisconnect : Except String Bool) (st : SessionState) :
    Except String Unit × SessionState :=
  if st.isConnected = false then (Except.ok (), st)
  else if driverAvailable = false then
    (Except.error "BluetoothSerial is not available or improperly initialized",
      { st with isConnected := false, connectedDeviceInfo := none })
  else
    match driverEnabled with
    | Except.error e =>
      (Except.error e, { st with isConnected := false, connectedDeviceInfo := none })
    | Except.ok false =>
      (Except.error "Bluetooth is not enabled",
        { st with isConnected := false, connectedDeviceInfo := none })
    | Except.ok true =>
      match driverDisconnect with
      | Except.error e =>
        (Except.error e, { st with isConnected := false, connectedDeviceInfo := none })
      | Except.ok false =>
        (Except.error "Failed to disconnect from device",
          { st with isConnected := false, connectedDeviceInfo := none })
      | Except.ok true =>
        (Except.ok (), { st with isConnected := false, connectedDeviceInfo := none })

/-- Persisted preference record stored under the userSettings key: a JSON
object whose relevant optional boolean members are modelled as optional
fields; a member is none when absent from the stored object. -/
structure UserSettings where
  autoBluetoothConnect : Option Bool
  darkMode : Option Bool
  keepScreenOn : Option Bool
deriving DecidableEq, Repr

/-- The empty JSON object used when nothing is stored yet. -/
def emptyUserSettings : UserSettings :=
  { autoBluetoothConnect := none, darkMode := none, keepScreenOn := none }

/-- Embedding of toggleAutoConnect (useBluetoothContext.tsx lines 121 to
135): read the stored record (or start from the empty object), spread it
with autoBluetoothConnect set to the negated in-memory flag, persist it,
and return the new stored record together with the new in-memory flag. -/
def toggleAutoConnect (stored : Option UserSettings) (autoConnect : Bool) :
    Option UserSettings × Bool :=
  let settings := stored.getD emptyUserSettings
  let newAutoConnect := !autoConnect
  (some { settings with autoBluetoothConnect := some newAutoConnect },
    newAutoConnect)

/-- Embedding of loadAutoConnectPreference (useBluetoothContext.tsx lines
109 to 119): when a record is stored, the flag becomes its
autoBluetoothConnect member with false as the nullish default; when
nothing is stored the in-memory flag is left as it was. -/
def loadAutoConnectPreference (stored : Option UserSettings)
    (autoConnect : Bool) : Bool :=
  match stored with
  | some settings => settings.autoBluetoothConnect.getD false
  | none => autoConnect

/-- Example screen state with a previously published reading, used by
witnesses. -/
def exampleScreenState : ScreenState :=
  { data :=
      { rpm := some (JSNum.num 1726), speed := some (JSNum.num 60),
        coolantTemp := some (JSNum.num 40), fuelLevel := some (JSNum.num 100),
        engineLoad := some (JSNum.num 50), throttlePos := some (JSNum.num 10),
        batteryVoltage := some (JSNum.num 14) },
    isLoading := false, error := none }

/-- Embedding of the alternate provider disconnect
(useBluetoothContext.tsx lines 475 to 517).  This variant never rethrows:
on an unsupported platform or missing driver module or method it only
clears the connection fields, otherwise it calls the driver disconnect
only when the state says connected, and its catch block swallows the
failure after clearing the same fields, so the promise always resolves. -/
def disconnectAlt (supported : Bool) (moduleAvailable : Bool)
    (methodAvailable : Bool) (driverDisconnect : Except String Bool)
    (st : SessionState) : Except String Unit × SessionState :=
  if supported = false then
    (Except.ok (), { st with isConnected := false, connectedDeviceInfo := none })
  else if moduleAvailable = false then
    (Except.ok (), { st with isConnected := false, connectedDeviceInfo := none })
  else if methodAvailable = false then
    (Except.ok (), { st with isConnected := false, connectedDeviceInfo := none })
  else if st.isConnected then
    match driverDisconnect with
    | Except.ok _ =>
      (Except.ok (), { st with isConnected := false, connectedDeviceInfo := none })
    | Except.error _ =>
      (Except.ok (), { st with isConnected := false, connectedDeviceInfo := none })
  else
    (Except.ok (), { st with isConnected := false, connectedDeviceInfo := none })

/-- Example session state with no connected device, used by witnesses. -/
def exampleDisconnectedState : SessionState :=
  { isEnabled := true, isConnected := false, autoConnect := false,
    connectionError := none, availableDevices := [],
    pairedDevices := [⟨"00:11:22:33:44:55", "OBDII", none⟩],
    connectedDeviceInfo := none }

/-- Dispatch lemma: the RPM branch of the decoder. -/
lemma parseOBDData_rpm_eq (s : String) :
    parseOBDData PID_RPM s =
      JSNum.num (((jsShr8 (jsOfParse (parseIntHex s)) * 256 +
        jsAnd255 (jsOfParse (parseIntHex s)) : ℤ) : ℚ) / 4) := by
  simp [parseOBDData]

/-- Dispatch lemma: the vehicle-speed branch of the decoder. -/
lemma parseOBDData_speed_eq (s : String) :
    parseOBDData PID_SPEED s = jsOfParse (parseIntHex s) := by
  simp [parseOBDData, PID_SPEED, PID_RPM]

/-- Dispatch lemma: the coolant-temperature branch of the decoder. -/
lemma parseOBDData_coolant_eq (s : String) :
    parseOBDData PID_COOLANT_TEMP s = jsSub (jsOfParse (parseIntHex s)) 40 := by
  simp [parseOBDData, PID_COOLANT_TEMP, PID_RPM, PID_SPEED]

/-- Dispatch lemma: the fuel-level branch of the decoder. -/
lemma parseOBDData_fuel_eq (s : String) :
    parseOBDData PID_FUEL_LEVEL s =
      jsDiv (jsMul (jsOfParse (parseIntHex s)) 100) 255 := by
  simp [parseOBDData, PID_FUEL_LEVEL, PID_RPM, PID_SPEED, PID_COOLANT_TEMP]

/-- Dispatch lemma: the engine-load branch of the decoder. -/
lemma parseOBDData_load_eq (s : String) :
    parseOBDData PID_ENGINE_LOAD s =
      jsDiv (jsMul (jsOfParse (parseIntHex s)) 100) 255 := by
  simp [parseOBDData, PID_ENGINE_LOAD, PID_RPM, PID_SPEED, PID_COOLANT_TEMP,
    PID_FUEL_LEVEL]

/-- Dispatch lemma: the throttle-position branch of the decoder. -/
lemma parseOBDData_throttle_eq (s : String) :
    parseOBDData PID_THROTTLE_POS s =
      jsDiv (jsMul (jsOfParse (parseIntHex s)) 100) 255 := by
  simp [parseOBDData, PID_THROTTLE_POS, PID_RPM, PID_SPEED, PID_COOLANT_TEMP,
    PID_FUEL_LEVEL, PID_ENGINE_LOAD]

/-- Dispatch lemma: the control-module-voltage branch of the decoder. -/
lemma parseOBDData_voltage_eq (s : String) :
    parseOBDData PID_CONTROL_MODULE_VOLTAGE s =
      jsDiv (jsOfParse (parseIntHex s)) 1000 := by
  simp [parseOBDData, PID_CONTROL_MODULE_VOLTAGE, PID_RPM, PID_SPEED,
    PID_COOLANT_TEMP, PID_FUEL_LEVEL, PID_ENGINE_LOAD, PID_THROTTLE_POS]

/-- Helper: ToInt32 is the identity on natural values below 2 to the 31. -/
lemma jsToInt32_natCast (n : ℕ) (h : n < 2 ^ 31) :
    jsToInt32 (JSNum.num (n : ℚ)) = (n : ℤ) := by
  simp only [jsToInt32, Rat.num_natCast, Rat.den_natCast, Nat.cast_one,
    Int.tdiv_one]
  have h32 : (n : ℤ) % 2 ^ 32 = (n : ℤ) := by omega
  rw [h32, if_pos (by exact_mod_cast (by omega : (n : ℤ) < 2 ^ 31))]

/-- Helper: the shift in the RPM formula extracts the high byte of a
two-byte value. -/
lemma jsShr8_byte (A B : ℕ) (hA : A < 256) (hB : B < 256) :
    jsShr8 (JSNum.num ((A * 256 + B : ℕ) : ℚ)) = (A : ℤ) := by
  unfold jsShr8
  rw [jsToInt32_natCast _ (by omega)]
  rw [Int.fdiv_eq_ediv _ (by norm_num)]
  omega

/-- Helper: the mask in the RPM formula extracts the low byte of a
two-byte value. -/
lemma jsAnd255_byte (A B : ℕ) (hA : A < 256) (hB : B < 256) :
    jsAnd255 (JSNum.num ((A * 256 + B : ℕ) : ℚ)) = (B : ℤ) := by
  unfold jsAnd255
  rw [jsToInt32_natCast _ (by omega)]
  omega

/-- C1: for every PID in the seven-entry command table, the decoder maps
a hex payload of the documented width to the documented physical value:
RPM payload with bytes A and B decodes to ((A * 256) + B) / 4, speed to
the byte itself, coolant temperature to the byte minus 40, fuel level,
engine load and throttle position to byte * 100 / 255, and control-module
voltage to the raw parsed value divided by 1000.  A payload of the
documented width is a string whose hex parse yields the stated byte
value(s). -/
theorem parseOBDData_decode_table :
    (∀ (s : String) (A B : ℕ), A < 256 → B < 256 → parseIntHex s = some (A * 256 + B) →
      parseOBDData PID_RPM s = JSNum.num (((A : ℚ) * 256 + (B : ℚ)) / 4)) ∧
    (∀ (s : String) (b : ℕ), b < 256 → parseIntHex s = some b →
      parseOBDData PID_SPEED s = JSNum.num (b : ℚ)) ∧
    (∀ (s : String) (b : ℕ), b < 256 → parseIntHex s = some b →
      parseOBDData PID_COOLANT_TEMP s = JSNum.num ((b : ℚ) - 40)) ∧
    (∀ (s : String) (b : ℕ), b < 256 → parseIntHex s = some b →
      parseOBDData PID_FUEL_LEVEL s = JSNum.num ((b : ℚ) * 100 / 255)) ∧
    (∀ (s : String) (b : ℕ), b < 256 → parseIntHex s = some b →
      parseOBDData PID_ENGINE_LOAD s = JSNum.num ((b : ℚ) * 100 / 255)) ∧
    (∀ (s : String) (b : ℕ), b < 256 → parseIntHex s = some b →
      parseOBDData PID_THROTTLE_POS s = JSNum.num ((b : ℚ) * 100 / 255)) ∧
    (∀ (s : String) (v : ℕ), parseIntHex s = some v →
      parseOBDData PID_CONTROL_MODULE_VOLTAGE s = JSNum.num ((v : ℚ) / 1000)) := by
  refine ⟨?_, ?_, ?_, ?_, ?_, ?_, ?_⟩
  · intro s A B hA hB hparse
    rw [parseOBDData_rpm_eq, hparse]
    simp only [jsOfParse, JSNum.num.injEq]
    rw [jsShr8_byte A B hA hB, jsAnd255_byte A B hA hB]
    push_cast
    ring
  · intro s b hb hparse
    rw [parseOBDData_speed_eq, hparse]
    rfl
  · intro s b hb hparse
    rw [parseOBDData_coolant_eq, hparse]
    rfl
  · intro s b hb hparse
    rw [parseOBDData_fuel_eq, hparse]
    rfl
  · intro s b hb hparse
    rw [parseOBDData_load_eq, hparse]
    rfl
  · intro s b hb hparse
    rw [parseOBDData_throttle_eq, hparse]
    rfl
  · intro s v hparse
    rw [parseOBDData_voltage_eq, hparse]
    rfl

/-- Witness for C1: the documented examples.  RPM payload bytes 0x1A and
0xF8 give 1726, coolant byte 0x50 gives 40 and byte 0x00 gives minus 40,
fuel bytes 0xFF and 0x00 give 100 and 0, and a voltage raw value of
14013 gives 14.013 volts. -/
theorem parseOBDData_decode_table_witness :
    parseOBDData PID_RPM "1AF8" = JSNum.num 1726 ∧
    parseOBDData PID_COOLANT_TEMP "50" = JSNum.num 40 ∧
    parseOBDData PID_COOLANT_TEMP "00" = JSNum.num (-40) ∧
    parseOBDData PID_FUEL_LEVEL "FF" = JSNum.num 100 ∧
    parseOBDData PID_FUEL_LEVEL "00" = JSNum.num 0 ∧
    parseOBDData PID_SPEED "3C" = JSNum.num 60 ∧
    parseOBDData PID_CONTROL_MODULE_VOLTAGE "36BD" = JSNum.num (14013 / 1000) := by
  refine ⟨?_, ?_, ?_, ?_, ?_, ?_, ?_⟩
  · rw [parseOBDData_decode_table.1 "1AF8" 26 248 (by norm_num) (by norm_num)
      (by decide)]
    norm_num
  · rw [parseOBDData_decode_table.2.2.1 "50" 80 (by norm_num) (by decide)]
    norm_num
  · rw [parseOBDData_decode_table.2.2.1 "00" 0 (by norm_num) (by decide)]
    norm_num
  · rw [parseOBDData_decode_table.2.2.2.1 "FF" 255 (by norm_num) (by decide)]
    norm_num
  · rw [parseOBDData_decode_table.2.2.2.1 "00" 0 (by norm_num) (by decide)]
    norm_num
  · rw [parseOBDData_decode_table.2.1 "3C" 60 (by norm_num) (by decide)]
    norm_num
  · rw [parseOBDData_decode_table.2.2.2.2.2.2 "36BD" 14013 (by decide)]
    norm_num

/-- C2: for every response string whose first space-separated token is
not 41, the command dispatcher fails with the invalid-response-format
error and returns no value; for every response whose first token is 41,
it returns the concatenation of all tokens after the first two. -/
theorem sendOBDCommand_prefix_check
    (transport : String → Except CommandError String) (command r : String)
    (hok : transport (command ++ "\r") = Except.ok r) :
    ((splitSpace r).head? ≠ some "41" →
      sendOBDCommand transport command =
        Except.error CommandError.invalidResponseFormat) ∧
    ((splitSpace r).head? = some "41" →
      sendOBDCommand transport command =
        Except.ok (String.join ((splitSpace r).drop 2))) := by
  constructor
  · intro hno
    simp [sendOBDCommand, hok, validateOBDResponse, hno]
  · intro hyes
    simp [sendOBDCommand, hok, validateOBDResponse, hyes]

/-- Witness for C2: a NO DATA reply is rejected as invalid, and a
well-formed reply whose first token is 41 yields the joined payload. -/
theorem sendOBDCommand_prefix_check_witness :
    sendOBDCommand (fun _ => Except.ok "NO DATA") "010C" =
      Except.error CommandError.invalidResponseFormat ∧
    sendOBDCommand (fun _ => Except.ok "41 0C 1A F8") "010C" =
      Except.ok "1AF8" := by
  constructor
  · exact (sendOBDCommand_prefix_check (fun _ => Except.ok "NO DATA") "010C"
      "NO DATA" rfl).1 (by decide)
  · have h := (sendOBDCommand_prefix_check (fun _ => Except.ok "41 0C 1A F8")
      "010C" "41 0C 1A F8" rfl).2 (by decide)
    rw [h]
    rfl

/-- C9: the dispatcher never validates the PID echo.  Whenever the
transport reply to any requested command starts with token 41, the
dispatch succeeds, and two replies that agree on everything after their
first two tokens produce identical results even for different requested
PIDs and different echo tokens. -/
theorem sendOBDCommand_ignores_echo
    (transport transportB : String → Except CommandError String)
    (command commandB r rB : String)
    (hok : transport (command ++ "\r") = Except.ok r)
    (hokB : transportB (commandB ++ "\r") = Except.ok rB)
    (h41 : (splitSpace r).head? = some "41")
    (h41B : (splitSpace rB).head? = some "41")
    (hsame : (splitSpace r).drop 2 = (splitSpace rB).drop 2) :
    (∃ v, sendOBDCommand transport command = Except.ok v) ∧
    sendOBDCommand transport command = sendOBDCommand transportB commandB := by
  have h1 : sendOBDCommand transport command =
      Except.ok (String.join ((splitSpace r).drop 2)) := by
    simp [sendOBDCommand, hok, validateOBDResponse, h41]
  have h2 : sendOBDCommand transportB commandB =
      Except.ok (String.join ((splitSpace rB).drop 2)) := by
    simp [sendOBDCommand, hokB, validateOBDResponse, h41B]
  refine ⟨⟨String.join ((splitSpace r).drop 2), h1⟩, ?_⟩
  rw [h1, h2, hsame]

/-- Witness for C9: a reply echoing PID 0D is accepted as the answer to
the RPM command 010C, and gives the very same result as a reply echoing
0C received for the speed command 010D. -/
theorem sendOBDCommand_ignores_echo_witness :
    (∃ v, sendOBDCommand (fun _ => Except.ok "41 0D 1A F8") "010C" =
      Except.ok v) ∧
    sendOBDCommand (fun _ => Except.ok "41 0D 1A F8") "010C" =
      sendOBDCommand (fun _ => Except.ok "41 0C 1A F8") "010D" :=
  sendOBDCommand_ignores_echo (fun _ => Except.ok "41 0D 1A F8")
    (fun _ => Except.ok "41 0C 1A F8") "010C" "010D" "41 0D 1A F8"
    "41 0C 1A F8" rfl rfl (by decide) (by decide) (by decide)

/-- C10 counterexample: the claim says the decoder applied to the empty
payload produces a non-numeric result, but for the RPM PID the JavaScript
bitwise operators coerce the NaN from parseInt of the empty string to 0,
so the decoder returns the ordinary number 0. -/
theorem parseOBDData_rpm_empty_is_zero :
    parseOBDData PID_RPM "" = JSNum.num 0 := by
  rw [parseOBDData_rpm_eq,
    show jsShr8 (jsOfParse (parseIntHex "")) = 0 from by decide,
    show jsAnd255 (jsOfParse (parseIntHex "")) = 0 from by decide]
  norm_num

/-- C10 amended: on a response of exactly two tokens whose first is 41,
the dispatcher succeeds with the empty payload; the decoder applied to
the empty payload raises no error, producing NaN for the six non-RPM
PIDs but the number 0 for the RPM PID, and either value is then stored
in the telemetry reading. -/
theorem sendOBDCommand_two_tokens_empty_payload
    (transport : String → Except CommandError String) (command r t2 : String)
    (hok : transport (command ++ "\r") = Except.ok r)
    (htok : splitSpace r = ["41", t2]) :
    sendOBDCommand transport command = Except.ok "" ∧
    parseOBDData PID_SPEED "" = JSNum.nan ∧
    parseOBDData PID_COOLANT_TEMP "" = JSNum.nan ∧
    parseOBDData PID_FUEL_LEVEL "" = JSNum.nan ∧
    parseOBDData PID_ENGINE_LOAD "" = JSNum.nan ∧
    parseOBDData PID_THROTTLE_POS "" = JSNum.nan ∧
    parseOBDData PID_CONTROL_MODULE_VOLTAGE "" = JSNum.nan ∧
    parseOBDData PID_RPM "" = JSNum.num 0 := by
  refine ⟨?_, ?_, ?_, ?_, ?_, ?_, ?_, ?_⟩
  · simp [sendOBDCommand, hok, validateOBDResponse, htok]
    rfl
  · rw [parseOBDData_speed_eq]
    rfl
  · rw [parseOBDData_coolant_eq]
    rfl
  · rw [parseOBDData_fuel_eq]
    rfl
  · rw [parseOBDData_load_eq]
    rfl
  · rw [parseOBDData_throttle_eq]
    rfl
  · rw [parseOBDData_voltage_eq]
    rfl
  · rw [parseOBDData_rpm_eq,
      show jsShr8 (jsOfParse (parseIntHex "")) = 0 from by decide,
      show jsAnd255 (jsOfParse (parseIntHex "")) = 0 from by decide]
    norm_num

/-- Witness for the amended C10: the two-token reply 41 0C yields the
empty payload and the decoders behave as stated. -/
theorem sendOBDCommand_two_tokens_empty_payload_witness :
    sendOBDCommand (fun _ => Except.ok "41 0C") "010C" = Except.ok "" ∧
    parseOBDData PID_SPEED "" = JSNum.nan ∧
    parseOBDData PID_RPM "" = JSNum.num 0 := by
  have h := sendOBDCommand_two_tokens_empty_payload
    (fun _ => Except.ok "41 0C") "010C" "41 0C" "0C" rfl (by decide)
  exact ⟨h.1, h.2.1, h.2.2.2.2.2.2.2⟩

/-- C3 counterexample: with an open connected session, a successful
write and no response line within the 5000 ms window, the dispatch does
fail, but the error surfaced to the caller is the generic send-failure
error produced by the catch block, not the distinct command-timeout
error created inside the race. -/
theorem sendCommand_timeout_not_distinct :
    (sendCommand true "010C" true none).1 = Except.error CommandError.sendFailed ∧
    (sendCommand true "010C" true none).1 ≠
      Except.error CommandError.commandTimeout := by
  constructor
  · rfl
  · intro h
    have h1 : (sendCommand true "010C" true none).1 =
        Except.error CommandError.sendFailed := rfl
    rw [h1] at h
    simp at h

/-- C3 amended: for every command sent while connected with a successful
write, if no response line arrives within the fixed 5-second window the
dispatch fails: the internal race rejects with the command-timeout
error, but the catch block replaces it, so the failure surfaced to the
caller is the generic send-failure error, indistinguishable from the
other in-dispatch failures (only the not-connected failure remains
distinct). -/
theorem sendCommand_timeout_surfaces_generic (command : String) :
    raceReadLineTimeout none = Except.error CommandError.commandTimeout ∧
    sendCommand true command true none =
      (Except.error CommandError.sendFailed, [command]) ∧
    sendCommand true command false (some "41 0C") =
      (Except.error CommandError.sendFailed, [command]) := by
  refine ⟨rfl, ?_, ?_⟩
  · simp [sendCommand, raceReadLineTimeout]
  · simp [sendCommand]

/-- C4: for every command string, invoking the session sendCommand while
the session is not connected fails with the not-connected error and
writes nothing to the transport. -/
theorem sendCommand_not_connected (command : String) (writeOk : Bool)
    (readLineResult : Option String) :
    sendCommand false command writeOk readLineResult =
      (Except.error CommandError.notConnected, []) := by
  simp [sendCommand]

/-- C5: in every poll cycle run while connected, if any of the seven
per-field commands fails, the whole cycle is aborted and reported as
failed, and the previously published telemetry reading is left
unchanged. -/
theorem fetchOBDData_aborts_on_any_failure
    (transport : String → Except CommandError String) (st : ScreenState)
    (h : ∃ c, c ∈ OBD_PIDS ∧ ∃ e, sendOBDCommand transport c = Except.error e) :
    (fetchOBDData true transport st).1.data = st.data ∧
    (fetchOBDData true transport st).1.error = some OBD_POLL_ERROR := by
  obtain ⟨c, hc, e, he⟩ := h
  simp only [OBD_PIDS, List.mem_cons, List.mem_singleton, List.not_mem_nil,
    or_false] at hc
  rcases h1 : sendOBDCommand transport PID_RPM with e1 | v1 <;>
    rcases h2 : sendOBDCommand transport PID_SPEED with e2 | v2 <;>
    rcases h3 : sendOBDCommand transport PID_COOLANT_TEMP with e3 | v3 <;>
    rcases h4 : sendOBDCommand transport PID_FUEL_LEVEL with e4 | v4 <;>
    rcases h5 : sendOBDCommand transport PID_ENGINE_LOAD with e5 | v5 <;>
    rcases h6 : sendOBDCommand transport PID_THROTTLE_POS with e6 | v6 <;>
    rcases h7 : sendOBDCommand transport PID_CONTROL_MODULE_VOLTAGE with e7 | v7 <;>
    first
    | (constructor <;> simp [fetchOBDData, h1, h2, h3, h4, h5, h6, h7] <;> done)
    | (rcases hc with rfl | rfl | rfl | rfl | rfl | rfl | rfl <;>
        simp only [h1, h2, h3, h4, h5, h6, h7] at he <;>
        exact Except.noConfusion he)

/-- Witness for C5: a transport on which every command fails leaves the
previously published reading untouched and reports the failed cycle. -/
theorem fetchOBDData_aborts_on_any_failure_witness :
    (fetchOBDData true (fun _ => Except.error CommandError.sendFailed)
      exampleScreenState).1.data = exampleScreenState.data ∧
    (fetchOBDData true (fun _ => Except.error CommandError.sendFailed)
      exampleScreenState).1.error = some OBD_POLL_ERROR :=
  fetchOBDData_aborts_on_any_failure (fun _ => Except.error CommandError.sendFailed)
    exampleScreenState ⟨PID_RPM, by decide, CommandError.sendFailed, rfl⟩

/-- Helper: a fetch invoked while the session reports disconnected issues
no command and leaves the published reading untouched. -/
lemma fetchOBDData_disconnected_eq
    (transport : String → Except CommandError String) (st : ScreenState) :
    fetchOBDData false transport st =
      ({ st with error := some OBD_NO_DEVICE_ERROR, isLoading := false }, []) := by
  simp [fetchOBDData]

/-- Helper: while disconnected, any number of poll invocations after the
reset keeps the reading all-unknown and issues no command. -/
lemma runDisconnectedPolls_all_unknown
    (transport : String → Except CommandError String) (n : ℕ)
    (st : ScreenState) (hdata : st.data = INITIAL_OBD_DATA) :
    (runDisconnectedPolls transport n st).1.data = INITIAL_OBD_DATA ∧
    (runDisconnectedPolls transport n st).2 = [] := by
  induction n generalizing st with
  | zero => exact ⟨hdata, rfl⟩
  | succ n ih =>
    simp only [runDisconnectedPolls, fetchOBDData_disconnected_eq]
    have := ih { st with error := some OBD_NO_DEVICE_ERROR, isLoading := false }
      hdata
    simpa using this

/-- C6: whenever the session reports disconnected, the polling effect
resets the telemetry reading to all-unknown, and for as long as the
disconnected state persists every further poll invocation issues no
command to the transport and leaves every one of the seven fields
unknown. -/
theorem poller_disconnected_all_unknown_no_commands
    (transport : String → Except CommandError String) (n : ℕ)
    (st : ScreenState) :
    (runDisconnectedPolls transport n (disconnectedReset st)).1.data =
      INITIAL_OBD_DATA ∧
    (runDisconnectedPolls transport n (disconnectedReset st)).2 = [] :=
  runDisconnectedPolls_all_unknown transport n (disconnectedReset st) rfl

/-- C7: disconnect is idempotent.  For the primary provider, invoking
disconnect in any session state with no device connected succeeds as a
no-op and leaves the entire session state unchanged; every disconnect
leaves the connected flag cleared, so a second disconnect right after any
first one succeeds and changes nothing.  For the alternate provider,
whose reachable not-connected states carry no device info, invoking its
disconnect in such a state also succeeds and leaves the state unchanged. -/
theorem disconnect_idempotent (driverAvailable : Bool)
    (driverEnabled driverDisconnect : Except String Bool) (st : SessionState) :
    (st.isConnected = false →
      disconnect driverAvailable driverEnabled driverDisconnect st =
        (Except.ok (), st)) ∧
    (disconnect driverAvailable driverEnabled driverDisconnect st).2.isConnected
      = false ∧
    (∀ dA dE dD,
      disconnect dA dE dD
          (disconnect driverAvailable driverEnabled driverDisconnect st).2 =
        (Except.ok (),
          (disconnect driverAvailable driverEnabled driverDisconnect st).2)) ∧
    (∀ supported moduleAvailable methodAvailable dD,
      st.isConnected = false → st.connectedDeviceInfo = none →
      disconnectAlt supported moduleAvailable methodAvailable dD st =
        (Except.ok (), st)) := by
  have hnoop : ∀ (dA : Bool) (dE dD : Except String Bool) (s : SessionState),
      s.isConnected = false → disconnect dA dE dD s = (Except.ok (), s) := by
    intro dA dE dD s hs
    simp [disconnect, hs]
  have hclear : (disconnect driverAvailable driverEnabled driverDisconnect
      st).2.isConnected = false := by
    by_cases hst : st.isConnected = false
    · rw [hnoop _ _ _ _ hst]
      exact hst
    · simp only [Bool.not_eq_false] at hst
      rcases driverAvailable with _ | _ <;>
        rcases driverEnabled with e | b <;>
        rcases driverDisconnect with e2 | b2 <;>
        (try rcases b with _ | _) <;> (try rcases b2 with _ | _) <;>
        simp [disconnect, hst]
  refine ⟨hnoop _ _ _ _ , hclear, ?_, ?_⟩
  · intro dA dE dD
    exact hnoop dA dE dD _ hclear
  · intro supported moduleAvailable methodAvailable dD hst hinfo
    have hrebuild :
        ({ st with isConnected := false, connectedDeviceInfo := none } :
          SessionState) = st := by
      cases st
      simp_all
    rcases supported with _ | _ <;> rcases moduleAvailable with _ | _ <;>
      rcases methodAvailable with _ | _ <;>
      simp [disconnectAlt, hst, hrebuild]

/-- Witness for C7: disconnecting the example not-connected session is a
no-op success for both providers, and a second disconnect after a real
one changes nothing. -/
theorem disconnect_idempotent_witness :
    disconnect true (Except.ok true) (Except.ok true) exampleDisconnectedState =
      (Except.ok (), exampleDisconnectedState) ∧
    disconnectAlt true true true (Except.ok true) exampleDisconnectedState =
      (Except.ok (), exampleDisconnectedState) := by
  constructor
  · exact (disconnect_idempotent true (Except.ok true) (Except.ok true)
      exampleDisconnectedState).1 rfl
  · exact (disconnect_idempotent true (Except.ok true) (Except.ok true)
      exampleDisconnectedState).2.2.2 true true true (Except.ok true) rfl rfl

/-- C8: toggling auto-connect writes the negated value to the persisted
preference record, and reloading the record, as a simulated restart does,
yields exactly the toggled value whatever the in-memory flag of the fresh
session starts as. -/
theorem toggleAutoConnect_roundtrip (stored : Option UserSettings)
    (autoConnect freshInitial : Bool) :
    (toggleAutoConnect stored autoConnect).2 = !autoConnect ∧
    (toggleAutoConnect stored autoConnect).1.isSome = true ∧
    loadAutoConnectPreference (toggleAutoConnect stored autoConnect).1
      freshInitial = !autoConnect := by
  cases stored <;>
    simp [toggleAutoConnect, loadAutoConnectPreference, emptyUserSettings]

